import Mathlib

/-
Verification of traviconda.py, a Travis CI helper that provisions miniconda
and builds and conditionally uploads a conda package to binstar.

Shallow embedding conventions:
  * A command is a list of string tokens (Python list passed to subprocess).
  * The external world is an oracle mapping a command to the outcome of
    spawning it: success with captured combined stdout and stderr, or failure
    with an exit code and captured combined output.
  * Side effects are recorded in an event trace: prints, output-capturing
    process runs (subprocess.check_output via the partial co, used by
    execute), and non-capturing checked runs (subprocess.check_call via the
    partial check, used by binstar_upload).
  * Python exceptions are Except values: CalledProcessError mirrors
    subprocess.CalledProcessError with returncode, cmd and output fields
    (output is None for check_call failures, which do not capture output);
    PyError adds ValueError, NameError, KeyError and TypeError for the
    remaining failure modes of the script.
  * The module global ns (the argparse namespace) is modelled as an
    Option ArgNamespace argument: none means the entry point never ran and a
    read of ns raises NameError.
  * Byte-string reprs in print payloads are modelled as the plain strings.
-/

namespace Traviconda

/-- Outcome of actually spawning an external process, as seen by
subprocess with stderr merged into stdout. -/
inductive ProcOutcome where
  | success (output : String)
  | failure (returncode : Int) (output : String)
deriving DecidableEq, Repr

/-- A command: program name followed by its arguments. -/
abbrev Cmd := List String

/-- The external world: what happens when each command is spawned. -/
abbrev World := Cmd → ProcOutcome

/-- subprocess.CalledProcessError: returncode, cmd, and captured output
(none when the raising call did not capture output). -/
structure CalledProcessError where
  returncode : Int
  cmd : Cmd
  output : Option String
deriving DecidableEq, Repr

/-- The exceptions the script can raise. -/
inductive PyError where
  | processError (e : CalledProcessError)
  | valueError (msg : String)
  | nameError (name : String)
  | keyError (key : String)
  | typeError (msg : String)
deriving DecidableEq, Repr

/-- Observable effects: prints, output-capturing runs (check_output via co),
and non-capturing checked runs (check_call via check). -/
inductive Event where
  | print (s : String)
  | runCaptured (c : Cmd)
  | runChecked (c : Cmd)
deriving DecidableEq, Repr

/-- Python str.format of a possibly-None value. -/
def pyFormatOpt : Option String → String
  | none => "None"
  | some s => s

/-- Python bool formatting. -/
def pyBool : Bool → String
  | true => "True"
  | false => "False"

/-- Python " ".join(cmd). -/
def joinSpace (c : Cmd) : String := String.intercalate " " c

/-- Does the command succeed under this world? -/
def succeeds (w : World) (c : Cmd) : Bool :=
  match w c with
  | ProcOutcome.success _ => true
  | ProcOutcome.failure _ _ => false

/-- The captured combined output of a command under this world. -/
def outputOf (w : World) (c : Cmd) : String :=
  match w c with
  | ProcOutcome.success o => o
  | ProcOutcome.failure _ o => o

/-- The CalledProcessError that co = check_output raises for a failing
command (output is captured). Junk value on a succeeding command. -/
def errOf (w : World) (c : Cmd) : CalledProcessError :=
  match w c with
  | ProcOutcome.failure rc o => ⟨rc, c, some o⟩
  | ProcOutcome.success o => ⟨0, c, some o⟩

/-- execute(cmd, verbose): optionally echo the command line, run it with
output capture (co), optionally echo the captured output, return it.
A non-zero exit raises CalledProcessError with the captured output. -/
def execute (w : World) (cmd : Cmd) (verbose : Bool) :
    List Event × Except CalledProcessError String :=
  let pre : List Event := if verbose then [Event.print ("> " ++ joinSpace cmd)] else []
  match w cmd with
  | ProcOutcome.success out =>
      (pre ++ [Event.runCaptured cmd] ++ (if verbose then [Event.print out] else []),
       Except.ok out)
  | ProcOutcome.failure rc out =>
      (pre ++ [Event.runCaptured cmd], Except.error ⟨rc, cmd, some out⟩)

/-- The loop body of execute_sequence: run each command in order through
execute; on the first CalledProcessError print a diagnostic with the
captured output and re-raise that same error. -/
def execSeqGo (w : World) (verbose : Bool) : List Cmd → List Event × Except CalledProcessError Unit
  | [] => ([], Except.ok ())
  | c :: rest =>
    match execute w c verbose with
    | (tr, Except.ok _) =>
        let r := execSeqGo w verbose rest
        (tr ++ r.1, r.2)
    | (tr, Except.error e) =>
        (tr ++ [Event.print (" -> " ++ pyFormatOpt e.output)], Except.error e)

/-- execute_sequence(*cmds, **kwargs): kwargs.get("verbose", True) defaults
verbosity to on, then the loop with fail-fast diagnostics. -/
def execute_sequence (w : World) (cmds : List Cmd) (kwverbose : Option Bool) :
    List Event × Except CalledProcessError Unit :=
  execSeqGo w (kwverbose.getD true) cmds

/-- miniconda_dir = p.expanduser("~/miniconda"), with the home directory as
an explicit parameter. -/
def miniconda_dir (home : String) : String := home ++ "/miniconda"

/-- miniconda_bin_dir = p.join(miniconda_dir, "bin"). -/
def miniconda_bin_dir (home : String) : String := miniconda_dir home ++ "/bin"

/-- conda executable path. -/
def conda (home : String) : String := miniconda_bin_dir home ++ "/conda"

/-- binstar executable path. -/
def binstar (home : String) : String := miniconda_bin_dir home ++ "/binstar"

/-- python = "python". -/
def python : String := "python"

/-- The argparse namespace ns produced by the entry point. -/
structure ArgNamespace where
  mode : String
  url : Option String
  channel : Option String
  path : Option String
  user : Option String
  key : Option String
deriving DecidableEq, Repr

/-- The Travis CI environment variables the script reads (none models an
unset variable, whose lookup raises KeyError). -/
structure TravisEnv where
  pull_request : Option String
  branch : Option String
  tag : Option String
deriving DecidableEq, Repr

/-- The command list setup_miniconda builds: download, batch install,
quiet conda update, quiet plugin install, plus a channel registration
appended last when a channel was given. -/
def setup_cmds (home url : String) (channel : Option String) : List Cmd :=
  let cmds : List Cmd :=
    [["wget", "-nv", url, "-O", "miniconda.sh"],
     [python, "miniconda.sh", "-b", "-p", miniconda_dir home],
     [conda home, "update", "-q", "--yes", "conda"],
     [conda home, "install", "-q", "--yes", "conda-build", "jinja2", "binstar"]]
  match channel with
  | some c => cmds ++ [[conda home, "config", "--add", "channels", c]]
  | none => cmds

/-- setup_miniconda(url, channel=None). The opening print reads the module
global ns (its path field, not the url parameter); an unset ns raises
NameError before anything runs. -/
def setup_miniconda (w : World) (home : String) (gns : Option ArgNamespace)
    (url : String) (channel : Option String) : List Event × Except PyError Unit :=
  match gns with
  | none => ([], Except.error (PyError.nameError "ns"))
  | some ns =>
    let ev0 := Event.print ("Setting up miniconda from URL " ++ pyFormatOpt ns.path)
    let evc : List Event :=
      match channel with
      | some c => [Event.print ("(adding channel \x27" ++ c ++ "\x27 for dependencies)")]
      | none => [Event.print ("No channels have been configured (all dependencies " ++
          "have to be sourceble from anaconda)")]
    let r := execute_sequence w (setup_cmds home url channel) none
    (ev0 :: evc ++ r.1, r.2.mapError PyError.processError)

/-- build(path): one quiet conda build command through the sequencer. -/
def build (w : World) (home path : String) : List Event × Except CalledProcessError Unit :=
  execute_sequence w [[conda home, "build", "-q", path]] none

/-- check = partial(subprocess.check_call, stderr=subprocess.STDOUT): runs
the command without capturing output; a non-zero exit raises
CalledProcessError whose output field is None. -/
def check (w : World) (cmd : Cmd) : List Event × Except CalledProcessError Unit :=
  match w cmd with
  | ProcOutcome.success _ => ([Event.runChecked cmd], Except.ok ())
  | ProcOutcome.failure rc _ => ([Event.runChecked cmd], Except.error ⟨rc, cmd, none⟩)

/-- The binstar upload command; the secret key sits at index 2. -/
def upload_cmd (home key user channel path : String) : Cmd :=
  [binstar home, "-t", key, "upload", "--force", "-u", user, "-c", channel, path]

/-- binstar_upload(key, user, channel, path): checked (non-capturing) upload
call; on CalledProcessError, overwrite index 2 of the command with
BINSTAR_KEY and raise a fresh CalledProcessError built from the returncode
and the redacted command only (no output argument, so output is None). -/
def binstar_upload (w : World) (home key user channel path : String) :
    List Event × Except CalledProcessError Unit :=
  match check w (upload_cmd home key user channel path) with
  | (tr, Except.ok u) => (tr, Except.ok u)
  | (tr, Except.error e) =>
      (tr, Except.error ⟨e.returncode, e.cmd.set 2 "BINSTAR_KEY", none⟩)

/-- resolve_can_upload_from_travis(): reads TRAVIS_PULL_REQUEST; eligibility
is the negation of an exact string comparison with "true". -/
def resolve_can_upload_from_travis (env : TravisEnv) :
    List Event × Except PyError Bool :=
  match env.pull_request with
  | none => ([], Except.error (PyError.keyError "TRAVIS_PULL_REQUEST"))
  | some pr =>
    let is_a_pr := pr == "true"
    let can_upload := !is_a_pr
    ([Event.print ("Can we can upload? : " ++ pyBool can_upload)], Except.ok can_upload)

/-- resolve_channel_from_travis_state(): reads TRAVIS_BRANCH then
TRAVIS_TAG; a non-empty tag equal to the branch resolves to main, anything
else resolves to the branch verbatim. -/
def resolve_channel_from_travis_state (env : TravisEnv) :
    List Event × Except PyError String :=
  match env.branch with
  | none => ([], Except.error (PyError.keyError "TRAVIS_BRANCH"))
  | some branch =>
    match env.tag with
    | none => ([], Except.error (PyError.keyError "TRAVIS_TAG"))
    | some tag =>
      let evs := [Event.print ("Travis branch is \"" ++ branch ++ "\""),
                  Event.print ("Travis tag found is: \"" ++ tag ++ "\"")]
      if tag ≠ "" ∧ branch = tag then
        (evs ++ [Event.print "on a tagged release -> upload to \x27main\x27"],
         Except.ok "main")
      else
        (evs ++ [Event.print ("not on a tag on master - just upload to the " ++
            "branch name " ++ branch)],
         Except.ok branch)

/-- build_and_upload(path, user=None, key=None). The opening print reads the
module global ns. After the build: report each missing credential and return
without uploading when user or key is None; otherwise consult the gate and,
when eligible, resolve the channel and upload (the artifact path comes from
get_conda_build_path, modelled by the opaque external oracle bld). -/
def build_and_upload (w : World) (bld : String → String) (home : String)
    (gns : Option ArgNamespace) (env : TravisEnv) (path : String)
    (user key : Option String) : List Event × Except PyError Unit :=
  match gns with
  | none => ([], Except.error (PyError.nameError "ns"))
  | some ns =>
    let ev0 := Event.print ("Building package at path " ++ pyFormatOpt ns.path)
    match build w home path with
    | (tr, Except.error e) => (ev0 :: tr, Except.error (PyError.processError e))
    | (tr, Except.ok _) =>
      match user, key with
      | some u, some k =>
        match resolve_can_upload_from_travis env with
        | (tr2, Except.error e) => (ev0 :: tr ++ tr2, Except.error e)
        | (tr2, Except.ok false) => (ev0 :: tr ++ tr2, Except.ok ())
        | (tr2, Except.ok true) =>
          match resolve_channel_from_travis_state env with
          | (tr3, Except.error e) => (ev0 :: tr ++ tr2 ++ tr3, Except.error e)
          | (tr3, Except.ok channel) =>
            let ev1 := Event.print ("Uploading to " ++ u ++ "/" ++ channel)
            let r := binstar_upload w home k u channel (bld path)
            (ev0 :: tr ++ tr2 ++ tr3 ++ [ev1] ++ r.1,
             r.2.mapError PyError.processError)
      | _, _ =>
        let evk : List Event :=
          if key.isNone then [Event.print "No binstar key provided"] else []
        let evu : List Event :=
          if user.isNone then [Event.print "No binstar user provided"] else []
        (ev0 :: tr ++ evk ++ evu ++ [Event.print "-> Unable to upload to binstar"],
         Except.ok ())

/-- The __main__ dispatch after argparse: setup mode requires --url and
raises ValueError when it is absent; build mode calls build_and_upload.
When ns.path is None in build mode, Python raises TypeError inside the
string join of the first build command, after the opening print. -/
def main_dispatch (w : World) (bld : String → String) (home : String)
    (env : TravisEnv) (ns : ArgNamespace) : List Event × Except PyError Unit :=
  if ns.mode = "setup" then
    match ns.url with
    | none => ([], Except.error (PyError.valueError
        "You must provide a miniconda URL for the setup command"))
    | some url => setup_miniconda w home (some ns) url ns.channel
  else if ns.mode = "build" then
    match ns.path with
    | some path => build_and_upload w bld home (some ns) env path ns.user ns.key
    | none =>
        ([Event.print "Building package at path None"],
         Except.error (PyError.typeError
            "sequence item 3: expected str instance, NoneType found"))
  else ([], Except.ok ())

/-- Process exit code: zero on a clean return, non-zero on any propagated
exception. -/
def process_exit_code : Except PyError Unit → Nat
  | Except.ok _ => 0
  | Except.error _ => 1

/-- Is this event a non-capturing checked run? -/
def isRunChecked : Event → Bool
  | Event.runChecked _ => true
  | _ => false

/-- Is this event a process run of either kind? -/
def isRun : Event → Bool
  | Event.print _ => false
  | Event.runCaptured _ => true
  | Event.runChecked _ => true

/-- The commands actually started, in order, as recorded in a trace. -/
def executedCmds (tr : List Event) : List Cmd :=
  tr.filterMap (fun e => match e with
    | Event.runCaptured c => some c
    | Event.runChecked c => some c
    | Event.print _ => none)

/-- The trace execute leaves for a succeeding command. -/
def okTrace (w : World) (v : Bool) (c : Cmd) : List Event :=
  (if v then [Event.print ("> " ++ joinSpace c)] else []) ++
  [Event.runCaptured c] ++
  (if v then [Event.print (outputOf w c)] else [])

/-- The trace execute leaves for a failing command. -/
def failTrace (v : Bool) (c : Cmd) : List Event :=
  (if v then [Event.print ("> " ++ joinSpace c)] else []) ++ [Event.runCaptured c]

/-- Concatenated traces of a list of succeeding commands, in list order. -/
def okTraces (w : World) (v : Bool) : List Cmd → List Event
  | [] => []
  | c :: cs => okTrace w v c ++ okTraces w v cs

/-- Splits a command list at its first failing command: the succeeding
prefix, the first failing command, and the abandoned suffix. -/
def splitFirstFail (w : World) : List Cmd → Option (List Cmd × Cmd × List Cmd)
  | [] => none
  | c :: rest =>
    if succeeds w c then
      match splitFirstFail w rest with
      | none => none
      | some (pre, f, post) => some (c :: pre, f, post)
    else some ([], c, rest)

/-- execute on a succeeding command. -/
theorem execute_ok (w : World) (c : Cmd) (v : Bool) (out : String)
    (hw : w c = ProcOutcome.success out) :
    execute w c v = (okTrace w v c, Except.ok out) := by
  simp [execute, okTrace, outputOf, hw]

/-- execute on a failing command. -/
theorem execute_err (w : World) (c : Cmd) (v : Bool) (rc : Int) (out : String)
    (hw : w c = ProcOutcome.failure rc out) :
    execute w c v = (failTrace v c, Except.error ⟨rc, c, some out⟩) := by
  simp [execute, failTrace, hw]

/-- Full characterization of the sequencer loop: with no failing command it
runs everything in order and returns cleanly; otherwise it runs exactly the
succeeding prefix and the first failing command, prints the diagnostic with
that error's captured output, and re-raises that same error. -/
theorem execSeqGo_spec (w : World) (v : Bool) :
    ∀ cmds : List Cmd,
    (splitFirstFail w cmds = none →
      execSeqGo w v cmds = (okTraces w v cmds, Except.ok ())) ∧
    (∀ pre f post, splitFirstFail w cmds = some (pre, f, post) →
      cmds = pre ++ f :: post ∧
      execSeqGo w v cmds =
        (okTraces w v pre ++ failTrace v f ++
          [Event.print (" -> " ++ pyFormatOpt (errOf w f).output)],
         Except.error (errOf w f))) := by
  intro cmds
  induction cmds with
  | nil =>
    constructor
    · intro _; rfl
    · intro pre f post h; simp [splitFirstFail] at h
  | cons c rest ih =>
    cases hw : w c with
    | success out =>
      have hex := execute_ok w c v out hw
      have hsc : succeeds w c = true := by simp [succeeds, hw]
      constructor
      · intro h
        have hsr : splitFirstFail w rest = none := by
          simp only [splitFirstFail, hsc, if_true] at h
          cases hsr2 : splitFirstFail w rest with
          | none => rfl
          | some x =>
            rcases x with ⟨pre, f, post⟩
            rw [hsr2] at h
            simp at h
        simp only [execSeqGo, hex]
        rw [ih.1 hsr]
        simp [okTraces]
      · intro pre f post h
        simp only [splitFirstFail, hsc, if_true] at h
        cases hsr : splitFirstFail w rest with
        | none => rw [hsr] at h; simp at h
        | some x =>
          rcases x with ⟨pre2, f2, post2⟩
          rw [hsr] at h
          simp at h
          rcases h with ⟨rfl, rfl, rfl⟩
          obtain ⟨hrest, htr⟩ := ih.2 pre2 f2 post2 hsr
          constructor
          · rw [hrest]; simp
          · simp only [execSeqGo, hex]
            rw [htr]
            simp [okTraces, List.append_assoc]
    | failure rc out =>
      have hex := execute_err w c v rc out hw
      have hsc : succeeds w c = false := by simp [succeeds, hw]
      constructor
      · intro h
        simp [splitFirstFail, hsc] at h
      · intro pre f post h
        simp only [splitFirstFail, hsc, Bool.false_eq_true, if_false] at h
        simp at h
        rcases h with ⟨rfl, rfl, rfl⟩
        constructor
        · simp
        · simp only [execSeqGo, hex]
          simp [okTraces, errOf, hw]

/-- executedCmds distributes over trace concatenation. -/
theorem executedCmds_append (a b : List Event) :
    executedCmds (a ++ b) = executedCmds a ++ executedCmds b := by
  simp [executedCmds, List.filterMap_append]

/-- A successful execute trace records exactly its one command. -/
theorem executedCmds_okTrace (w : World) (v : Bool) (c : Cmd) :
    executedCmds (okTrace w v c) = [c] := by
  cases v <;> rfl

/-- A failing execute trace records exactly its one command. -/
theorem executedCmds_failTrace (v : Bool) (c : Cmd) :
    executedCmds (failTrace v c) = [c] := by
  cases v <;> rfl

/-- A lone print records no command. -/
theorem executedCmds_print (s : String) : executedCmds [Event.print s] = [] := rfl

/-- A run of succeeding commands records exactly those commands in order. -/
theorem executedCmds_okTraces (w : World) (v : Bool) :
    ∀ l, executedCmds (okTraces w v l) = l := by
  intro l
  induction l with
  | nil => rfl
  | cons c cs ih =>
    simp only [okTraces, executedCmds_append, executedCmds_okTrace, ih]
    rfl

/-- No event in an execute trace is a checked (non-capturing) run. -/
theorem execute_no_checked (w : World) (c : Cmd) (v : Bool) :
    ∀ e ∈ (execute w c v).1, isRunChecked e = false := by
  intro e he
  cases e with
  | print s => rfl
  | runCaptured c2 => rfl
  | runChecked c2 =>
    exfalso
    cases v <;> cases hw : w c <;> simp [execute, hw] at he

/-- No event in an execSeqGo trace is a checked (non-capturing) run. -/
theorem execSeqGo_no_checked (w : World) (v : Bool) :
    ∀ cmds, ∀ e ∈ (execSeqGo w v cmds).1, isRunChecked e = false := by
  intro cmds
  induction cmds with
  | nil => intro e he; simp [execSeqGo] at he
  | cons c rest ih =>
    intro e he
    unfold execSeqGo at he
    split at he
    · rename_i tr x hx
      simp at he
      rcases he with he | he
      · have h2 := execute_no_checked w c v e
        rw [hx] at h2
        exact h2 he
      · exact ih e he
    · rename_i tr e0 hx
      simp at he
      rcases he with he | rfl
      · have h2 := execute_no_checked w c v e
        rw [hx] at h2
        exact h2 he
      · rfl

/-- No event in an execute_sequence trace is a checked run. -/
theorem execute_sequence_no_checked (w : World) (cmds : List Cmd) (kv : Option Bool) :
    ∀ e ∈ (execute_sequence w cmds kv).1, isRunChecked e = false :=
  execSeqGo_no_checked w (kv.getD true) cmds

/-- A world in which every command succeeds with output ok. -/
def w0 : World := fun _ => ProcOutcome.success "ok"

/-- A world in which every command fails with exit code 1 and output boom. -/
def wfail : World := fun _ => ProcOutcome.failure 1 "boom"

/-- A world in which only the command b fails. -/
def wab : World := fun c =>
  if c = ["b"] then ProcOutcome.failure 1 "boom" else ProcOutcome.success "ok"

/-- A concrete Travis environment: not a pull request, on branch master. -/
def env0 : TravisEnv := ⟨some "false", some "master", some ""⟩

/-- A concrete argparse namespace for build mode. -/
def ns0 : ArgNamespace := ⟨"build", none, none, some "/pkg", none, none⟩

/-- C5: Command Sequencer: verbosity defaults to on; commands run strictly
in list order; with no failing command all of them run and the sequencer
returns cleanly; at the first failing command it prints a one-line
diagnostic containing that error's captured output and re-raises that same
error, and the commands actually started are exactly the succeeding prefix
plus the failing command, so nothing after the failure is ever started. -/
theorem command_sequencer_correct (w : World) (cmds : List Cmd) (kv : Option Bool) :
    (execute_sequence w cmds none = execute_sequence w cmds (some true)) ∧
    (splitFirstFail w cmds = none →
      execute_sequence w cmds kv = (okTraces w (kv.getD true) cmds, Except.ok ()) ∧
      executedCmds (execute_sequence w cmds kv).1 = cmds) ∧
    (∀ pre f post, splitFirstFail w cmds = some (pre, f, post) →
      cmds = pre ++ f :: post ∧
      execute_sequence w cmds kv =
        (okTraces w (kv.getD true) pre ++ failTrace (kv.getD true) f ++
          [Event.print (" -> " ++ pyFormatOpt (errOf w f).output)],
         Except.error (errOf w f)) ∧
      executedCmds (execute_sequence w cmds kv).1 = pre ++ [f]) := by
  have hdef : execute_sequence w cmds kv = execSeqGo w (kv.getD true) cmds := rfl
  refine ⟨rfl, ?_, ?_⟩
  · intro h
    have h1 := (execSeqGo_spec w (kv.getD true) cmds).1 h
    refine ⟨by rw [hdef, h1], ?_⟩
    rw [hdef, h1]
    exact executedCmds_okTraces w (kv.getD true) cmds
  · intro pre f post h
    obtain ⟨h1, h2⟩ := (execSeqGo_spec w (kv.getD true) cmds).2 pre f post h
    refine ⟨h1, by rw [hdef, h2], ?_⟩
    rw [hdef, h2]
    simp only [executedCmds_append, executedCmds_okTraces, executedCmds_failTrace,
      executedCmds_print, List.append_nil]

/-- Witness for C5: command a succeeds, command b fails, nothing follows. -/
theorem command_sequencer_correct_witness :
    ([["a"], ["b"]] : List Cmd) = [["a"]] ++ ["b"] :: [] ∧
    execute_sequence wab [["a"], ["b"]] none =
      (okTraces wab true [["a"]] ++ failTrace true ["b"] ++
        [Event.print (" -> " ++ pyFormatOpt (errOf wab ["b"]).output)],
       Except.error (errOf wab ["b"])) ∧
    executedCmds (execute_sequence wab [["a"], ["b"]] none).1 = [["a"]] ++ [["b"]] :=
  (command_sequencer_correct wab [["a"], ["b"]] none).2.2 [["a"]] ["b"] [] (by decide)

/-- C3: build_and_upload with a missing user or key: after a successful
build it prints each missing credential and the unable-to-upload line and
returns cleanly, and its whole trace contains no checked run, so the
Publisher upload call is never invoked, regardless of the gate. -/
theorem build_and_upload_missing_credentials (w : World) (bld : String → String)
    (home : String) (ns : ArgNamespace) (env : TravisEnv) (path : String)
    (user key : Option String) (hmiss : user = none ∨ key = none)
    (tr : List Event) (hb : build w home path = (tr, Except.ok ())) :
    build_and_upload w bld home (some ns) env path user key =
      (Event.print ("Building package at path " ++ pyFormatOpt ns.path) :: tr ++
        (if key.isNone then [Event.print "No binstar key provided"] else []) ++
        (if user.isNone then [Event.print "No binstar user provided"] else []) ++
        [Event.print "-> Unable to upload to binstar"],
       Except.ok ()) ∧
    ∀ e ∈ (build_and_upload w bld home (some ns) env path user key).1,
      isRunChecked e = false := by
  have htr : ∀ e ∈ tr, isRunChecked e = false := by
    have h3 : (build w home path).1 = tr := congrArg Prod.fst hb
    intro e he
    exact execute_sequence_no_checked w [[conda home, "build", "-q", path]] none e
      (h3.symm ▸ he)
  have h1 : build_and_upload w bld home (some ns) env path user key =
      (Event.print ("Building package at path " ++ pyFormatOpt ns.path) :: tr ++
        (if key.isNone then [Event.print "No binstar key provided"] else []) ++
        (if user.isNone then [Event.print "No binstar user provided"] else []) ++
        [Event.print "-> Unable to upload to binstar"],
       Except.ok ()) := by
    rcases user with _ | u <;> rcases key with _ | k
    · simp [build_and_upload, hb]
    · simp [build_and_upload, hb]
    · simp [build_and_upload, hb]
    · rcases hmiss with h | h <;> simp at h
  refine ⟨h1, ?_⟩
  intro e he
  rw [h1] at he
  simp at he
  rcases he with rfl | he
  · rfl
  rcases he with he | he
  · exact htr e he
  rcases he with he | he
  · rcases he with ⟨-, rfl⟩; rfl
  rcases he with he | rfl
  · rcases he with ⟨-, rfl⟩; rfl
  · rfl

/-- Witness for C3 at user = key = None with an all-succeeding world. -/
theorem build_and_upload_missing_credentials_witness :
    build_and_upload w0 (fun s => s) "/h" (some ns0) env0 "p" none none =
      (Event.print ("Building package at path " ++ pyFormatOpt ns0.path) ::
        [Event.print "> /h/miniconda/bin/conda build -q p",
         Event.runCaptured ["/h/miniconda/bin/conda", "build", "-q", "p"],
         Event.print "ok"] ++
        (if (none : Option String).isNone then
          [Event.print "No binstar key provided"] else []) ++
        (if (none : Option String).isNone then
          [Event.print "No binstar user provided"] else []) ++
        [Event.print "-> Unable to upload to binstar"],
       Except.ok ()) :=
  (build_and_upload_missing_credentials w0 (fun s => s) "/h" ns0 env0 "p" none none
    (Or.inl rfl)
    [Event.print "> /h/miniconda/bin/conda build -q p",
     Event.runCaptured ["/h/miniconda/bin/conda", "build", "-q", "p"],
     Event.print "ok"]
    rfl).1

/-- C1: Channel Resolution: when the CI-reported branch and tag are present,
a non-empty tag equal to the branch resolves the channel to the fixed string
main; otherwise (tag empty or different from branch) the resolved channel is
the branch string verbatim, including the empty string. -/
theorem channel_resolution_correct (env : TravisEnv) (branch tag : String)
    (hb : env.branch = some branch) (ht : env.tag = some tag) :
    ((tag ≠ "" ∧ tag = branch) →
      (resolve_channel_from_travis_state env).2 = Except.ok "main") ∧
    ((tag = "" ∨ tag ≠ branch) →
      (resolve_channel_from_travis_state env).2 = Except.ok branch) := by
  constructor
  · rintro ⟨hne, heq⟩
    simp only [resolve_channel_from_travis_state, hb, ht]
    rw [if_pos ⟨hne, heq.symm⟩]
  · intro h
    simp only [resolve_channel_from_travis_state, hb, ht]
    rw [if_neg]
    rintro ⟨h1, h2⟩
    rcases h with h | h
    · exact h1 h
    · exact h h2.symm

/-- Witness for C1 at branch = tag = v1. -/
theorem channel_resolution_correct_witness :
    (resolve_channel_from_travis_state ⟨some "false", some "v1", some "v1"⟩).2 =
      Except.ok "main" :=
  (channel_resolution_correct ⟨some "false", some "v1", some "v1"⟩ "v1" "v1" rfl rfl).1
    ⟨by decide, rfl⟩

/-- C2: Upload Eligibility: when the pull-request indicator is present,
eligibility is the boolean negation of the single exact comparison of that
string with the literal true, so it is false exactly when the indicator
equals true and true for every other string. -/
theorem upload_eligibility_correct (env : TravisEnv) (pr : String)
    (h : env.pull_request = some pr) :
    (resolve_can_upload_from_travis env).2 = Except.ok (!(pr == "true")) ∧
    ((resolve_can_upload_from_travis env).2 = Except.ok false ↔ pr = "true") := by
  have h1 : (resolve_can_upload_from_travis env).2 = Except.ok (!(pr == "true")) := by
    simp only [resolve_can_upload_from_travis, h]
  refine ⟨h1, ?_⟩
  rw [h1]
  constructor
  · intro h2
    have h3 := Except.ok.inj h2
    simpa using h3
  · intro h2
    subst h2
    rfl

/-- Witness for C2 at indicator true. -/
theorem upload_eligibility_correct_witness :
    (resolve_can_upload_from_travis ⟨some "true", none, none⟩).2 = Except.ok false :=
  ((upload_eligibility_correct ⟨some "true", none, none⟩ "true" rfl).2).2 rfl

/-- C4 counterexample: the claim that no field of the re-raised upload error
contains the original key fails when the key string coincides with another
argument: with key = user = sek, the re-raised command still contains sek at
the user position even though index 2 was redacted. -/
theorem publisher_redaction_counterexample :
    ¬ (∀ (w : World) (home key user channel path : String) (e : CalledProcessError),
        (binstar_upload w home key user channel path).2 = Except.error e →
        key ∉ e.cmd) := by
  intro h
  exact h wfail "/h" "sek" "sek" "c" "p"
    ⟨1, ["/h/miniconda/bin/binstar", "-t", "BINSTAR_KEY", "upload", "--force", "-u",
        "sek", "-c", "c", "p"], none⟩
    rfl (by decide)

/-- C4 amended: on every upload failure the re-raised error's command has
the secret-key position (index 2) overwritten with BINSTAR_KEY and its
output field is None; the original key is absent from every field provided
it differs from each remaining token of the command. -/
theorem publisher_redaction_amended (w : World) (home key user channel path : String)
    (e : CalledProcessError)
    (he : (binstar_upload w home key user channel path).2 = Except.error e) :
    e.cmd = [binstar home, "-t", "BINSTAR_KEY", "upload", "--force", "-u", user,
             "-c", channel, path] ∧
    e.cmd[2]? = some "BINSTAR_KEY" ∧
    e.output = none ∧
    (key ∉ [binstar home, "-t", "BINSTAR_KEY", "upload", "--force", "-u", user,
            "-c", channel, path] → key ∉ e.cmd) := by
  rcases hw : w (upload_cmd home key user channel path) with ⟨out⟩ | ⟨rc, out⟩
  · exfalso
    simp [binstar_upload, check, hw] at he
  · have hb2 : (binstar_upload w home key user channel path).2 =
        Except.error ⟨rc, (upload_cmd home key user channel path).set 2
          "BINSTAR_KEY", none⟩ := by
      simp [binstar_upload, check, hw]
    rw [hb2] at he
    obtain rfl := Except.error.inj he
    exact ⟨rfl, rfl, rfl, fun hnot hmem => hnot hmem⟩

/-- Witness for the amended C4 at a concrete failing upload. -/
theorem publisher_redaction_amended_witness :
    (⟨1, ["/h/miniconda/bin/binstar", "-t", "BINSTAR_KEY", "upload", "--force", "-u",
        "u", "-c", "c", "p"], none⟩ : CalledProcessError).cmd =
      ["/h/miniconda/bin/binstar", "-t", "BINSTAR_KEY", "upload", "--force", "-u",
       "u", "-c", "c", "p"] ∧
    (⟨1, ["/h/miniconda/bin/binstar", "-t", "BINSTAR_KEY", "upload", "--force", "-u",
        "u", "-c", "c", "p"], none⟩ : CalledProcessError).cmd[2]? =
      some "BINSTAR_KEY" ∧
    (⟨1, ["/h/miniconda/bin/binstar", "-t", "BINSTAR_KEY", "upload", "--force", "-u",
        "u", "-c", "c", "p"], none⟩ : CalledProcessError).output = none ∧
    ("k" ∉ ["/h/miniconda/bin/binstar", "-t", "BINSTAR_KEY", "upload", "--force",
        "-u", "u", "-c", "c", "p"] →
      "k" ∉ (⟨1, ["/h/miniconda/bin/binstar", "-t", "BINSTAR_KEY", "upload",
        "--force", "-u", "u", "-c", "c", "p"], none⟩ : CalledProcessError).cmd) :=
  publisher_redaction_amended wfail "/h" "k" "u" "c" "p"
    ⟨1, ["/h/miniconda/bin/binstar", "-t", "BINSTAR_KEY", "upload", "--force", "-u",
        "u", "-c", "c", "p"], none⟩ rfl

/-- C6 counterexample: an upload failure re-raised by the Publisher does not
carry the captured combined output of the failed process: its output field
is None (check_call captures nothing and the re-raise passes no output),
while the failed process under this world produced the output boom. -/
theorem uniform_error_payload_counterexample :
    ¬ (∀ (w : World) (home key user channel path : String) (e : CalledProcessError),
        (binstar_upload w home key user channel path).2 = Except.error e →
        e.output = some (outputOf w (upload_cmd home key user channel path))) := by
  intro h
  have h2 := h wfail "/h" "k" "u" "c" "p"
    ⟨1, ["/h/miniconda/bin/binstar", "-t", "BINSTAR_KEY", "upload", "--force", "-u",
        "u", "-c", "c", "p"], none⟩ rfl
  exact Option.noConfusion h2

/-- C6 amended: every failure surfaces as the one error kind
CalledProcessError; a failure of the capturing runner carries the failing
command, its exit code and the captured combined output, while the
Publisher's re-raised upload failure carries the redacted command and exit
code but no captured output (its output field is None). -/
theorem uniform_error_payload_amended (w : World) :
    (∀ (cmd : Cmd) (v : Bool) (e : CalledProcessError),
        (execute w cmd v).2 = Except.error e →
        e = errOf w cmd ∧ e.cmd = cmd ∧ e.output = some (outputOf w cmd)) ∧
    (∀ (home key user channel path : String) (e : CalledProcessError),
        (binstar_upload w home key user channel path).2 = Except.error e →
        e.cmd = (upload_cmd home key user channel path).set 2 "BINSTAR_KEY" ∧
        e.returncode = (errOf w (upload_cmd home key user channel path)).returncode ∧
        e.output = none) := by
  constructor
  · intro cmd v e he
    rcases hw : w cmd with ⟨out⟩ | ⟨rc, out⟩
    · exfalso
      simp [execute, hw] at he
    · have hb2 : (execute w cmd v).2 = Except.error ⟨rc, cmd, some out⟩ := by
        simp [execute, hw]
      rw [hb2] at he
      obtain rfl := Except.error.inj he
      exact ⟨by simp [errOf, hw], rfl, by simp [outputOf, hw]⟩
  · intro home key user channel path e he
    rcases hw : w (upload_cmd home key user channel path) with ⟨out⟩ | ⟨rc, out⟩
    · exfalso
      simp [binstar_upload, check, hw] at he
    · have hb2 : (binstar_upload w home key user channel path).2 =
          Except.error ⟨rc, (upload_cmd home key user channel path).set 2
            "BINSTAR_KEY", none⟩ := by
        simp [binstar_upload, check, hw]
      rw [hb2] at he
      obtain rfl := Except.error.inj he
      exact ⟨rfl, by simp [errOf, hw], rfl⟩

/-- Witness for the amended C6 at a concrete failing captured run. -/
theorem uniform_error_payload_amended_witness :
    (⟨1, ["x"], some "boom"⟩ : CalledProcessError) = errOf wfail ["x"] ∧
    (⟨1, ["x"], some "boom"⟩ : CalledProcessError).cmd = ["x"] ∧
    (⟨1, ["x"], some "boom"⟩ : CalledProcessError).output =
      some (outputOf wfail ["x"]) :=
  (uniform_error_payload_amended wfail).1 ["x"] true ⟨1, ["x"], some "boom"⟩ rfl

/-- No event in a setup_miniconda trace is a checked run. -/
theorem setup_miniconda_no_checked (w : World) (home : String) (ns : ArgNamespace)
    (url : String) (ch : Option String) :
    ∀ e ∈ (setup_miniconda w home (some ns) url ch).1, isRunChecked e = false := by
  intro e he
  cases e with
  | print s => rfl
  | runCaptured c2 => rfl
  | runChecked c2 =>
    exfalso
    have hseq := execute_sequence_no_checked w (setup_cmds home url ch) none
      (Event.runChecked c2)
    rcases ch with _ | c <;> simp only [setup_miniconda] at he <;> simp at he <;>
      simpa [isRunChecked] using hseq he

/-- C7 counterexample: the Publisher's upload call does not go through the
capturing Command Runner: its trace contains a checked (non-capturing) run
event. -/
theorem execution_substrate_counterexample :
    ¬ (∀ (w : World) (home key user channel path : String),
        ∀ e ∈ (binstar_upload w home key user channel path).1,
          isRunChecked e = false) := by
  intro h
  have h2 := h w0 "/h" "k" "u" "c" "p"
    (Event.runChecked (upload_cmd "/h" "k" "u" "c" "p")) (by decide)
  simp [isRunChecked] at h2

/-- C7 amended: the capturing Command Runner returns the captured combined
output as its success value and records a captured run; the Environment
Provisioner and the Package Builder invoke processes only through it; the
Publisher alone bypasses it, invoking the upload as a single checked
non-capturing call. -/
theorem execution_substrate_amended (w : World) (home key user channel path : String) :
    (∀ (cmd : Cmd) (v : Bool) (out : String),
        w cmd = ProcOutcome.success out →
        (execute w cmd v).2 = Except.ok out ∧
        (execute w cmd v).1.filter isRun = [Event.runCaptured cmd]) ∧
    (∀ (ns : ArgNamespace) (url : String) (ch : Option String),
        ∀ e ∈ (setup_miniconda w home (some ns) url ch).1,
          isRunChecked e = false) ∧
    (∀ e ∈ (build w home path).1, isRunChecked e = false) ∧
    (binstar_upload w home key user channel path).1.filter isRun =
      [Event.runChecked (upload_cmd home key user channel path)] := by
  refine ⟨?_, ?_, ?_, ?_⟩
  · intro cmd v out hw
    constructor
    · simp [execute, hw]
    · cases v <;> simp [execute, hw, isRun]
  · intro ns url ch
    exact setup_miniconda_no_checked w home ns url ch
  · intro e he
    exact execute_sequence_no_checked w [[conda home, "build", "-q", path]] none e he
  · rcases hw : w (upload_cmd home key user channel path) with ⟨out⟩ | ⟨rc, out⟩ <;>
      simp [binstar_upload, check, hw, isRun]

/-- Witness for the amended C7 at a concrete succeeding command. -/
theorem execution_substrate_amended_witness :
    (execute w0 ["x"] true).2 = Except.ok "ok" ∧
    (execute w0 ["x"] true).1.filter isRun = [Event.runCaptured ["x"]] :=
  (execution_substrate_amended w0 "/h" "k" "u" "c" "p").1 ["x"] true "ok" rfl

/-- String append is associative. -/
theorem strAppendAssoc (a b c : String) : a ++ b ++ c = a ++ (b ++ c) := by
  apply String.ext
  simp [String.data_append, List.append_assoc]

/-- C8: Environment Provisioner: the command list it builds and runs is
exactly, in order: download the installer to the fixed file miniconda.sh,
run it in batch mode into the fixed home-relative miniconda directory,
quietly update conda, quietly install the fixed plugin set, plus a
channel-registration command appended last exactly when a channel was
given; with no channel it instead prints that all dependencies must be
sourceable from anaconda; the list is run through the sequencer. -/
theorem environment_provisioner_correct (w : World) (home url : String)
    (ch : Option String) (ns : ArgNamespace) :
    setup_cmds home url ch =
      [["wget", "-nv", url, "-O", "miniconda.sh"],
       ["python", "miniconda.sh", "-b", "-p", home ++ "/miniconda"],
       [home ++ "/miniconda/bin/conda", "update", "-q", "--yes", "conda"],
       [home ++ "/miniconda/bin/conda", "install", "-q", "--yes", "conda-build",
        "jinja2", "binstar"]] ++
      (match ch with
       | some c => [[home ++ "/miniconda/bin/conda", "config", "--add", "channels", c]]
       | none => []) ∧
    (setup_miniconda w home (some ns) url ch).1 =
      Event.print ("Setting up miniconda from URL " ++ pyFormatOpt ns.path) ::
      (match ch with
       | some c => [Event.print ("(adding channel \x27" ++ c ++ "\x27 for dependencies)")]
       | none => [Event.print ("No channels have been configured (all dependencies " ++
           "have to be sourceble from anaconda)")]) ++
      (execute_sequence w (setup_cmds home url ch) none).1 ∧
    (setup_miniconda w home (some ns) url ch).2 =
      (execute_sequence w (setup_cmds home url ch) none).2.mapError
        PyError.processError := by
  have hc : conda home = home ++ "/miniconda/bin/conda" := by
    simp [conda, miniconda_bin_dir, miniconda_dir, strAppendAssoc]
  have hm : miniconda_dir home = home ++ "/miniconda" := rfl
  refine ⟨?_, ?_, ?_⟩
  · rcases ch with _ | c <;> simp [setup_cmds, hc, hm, python]
  · rcases ch with _ | c <;> simp [setup_miniconda]
  · rcases ch with _ | c <;> simp [setup_miniconda]

/-- A concrete argparse namespace for setup mode with no url. -/
def nsSetup0 : ArgNamespace := ⟨"setup", none, none, none, none, none⟩

/-- C9: Entry point validation: in setup mode a missing --url raises
ValueError before any provisioning command runs (the trace is empty) and
yields a non-zero exit; with --url present, setup proceeds with the given
URL and optional channel. -/
theorem entry_point_validation (w : World) (bld : String → String) (home : String)
    (env : TravisEnv) (ns : ArgNamespace) (hmode : ns.mode = "setup") :
    (ns.url = none →
      main_dispatch w bld home env ns =
        ([], Except.error (PyError.valueError
          "You must provide a miniconda URL for the setup command")) ∧
      executedCmds (main_dispatch w bld home env ns).1 = [] ∧
      process_exit_code (main_dispatch w bld home env ns).2 ≠ 0) ∧
    (∀ url, ns.url = some url →
      main_dispatch w bld home env ns =
        setup_miniconda w home (some ns) url ns.channel) := by
  constructor
  · intro hu
    have h1 : main_dispatch w bld home env ns =
        ([], Except.error (PyError.valueError
          "You must provide a miniconda URL for the setup command")) := by
      simp [main_dispatch, hmode, hu]
    exact ⟨h1, by rw [h1]; rfl, by rw [h1]; decide⟩
  · intro url hu
    simp [main_dispatch, hmode, hu]

/-- Witness for C9: setup mode with no url. -/
theorem entry_point_validation_witness :
    main_dispatch w0 (fun s => s) "/h" env0 nsSetup0 =
      ([], Except.error (PyError.valueError
        "You must provide a miniconda URL for the setup command")) ∧
    executedCmds (main_dispatch w0 (fun s => s) "/h" env0 nsSetup0).1 = [] ∧
    process_exit_code (main_dispatch w0 (fun s => s) "/h" env0 nsSetup0).2 ≠ 0 :=
  (entry_point_validation w0 (fun s => s) "/h" env0 nsSetup0 rfl).1 rfl

/-- C10: setup_miniconda and build_and_upload read the module global ns in
their opening print statement: without the entry point having bound ns both
raise NameError with an empty trace, so no command executes; and with ns
bound, the first event of setup_miniconda interpolates ns.path (the --path
argument) into its message, not the url parameter. -/
theorem global_namespace_dependency (w : World) (bld : String → String)
    (home url path : String) (ch : Option String) (env : TravisEnv)
    (user key : Option String) (ns : ArgNamespace) :
    setup_miniconda w home none url ch =
      ([], Except.error (PyError.nameError "ns")) ∧
    build_and_upload w bld home none env path user key =
      ([], Except.error (PyError.nameError "ns")) ∧
    (setup_miniconda w home (some ns) url ch).1.head? =
      some (Event.print ("Setting up miniconda from URL " ++ pyFormatOpt ns.path)) := by
  refine ⟨rfl, rfl, ?_⟩
  rcases ch with _ | c <;> rfl

end Traviconda
